import Mathlib

/-
Verification of the HR Absenteeism Predictor dashboard (src/app.py)
against its natural-language specification.

The script is shallowly embedded: a pandas DataFrame becomes a list of
column names together with a rectangular list of rows; the pre-trained
classifier is an abstract pair of functions (predict, predict_proba); the
Streamlit session state is an explicit record; file writes and session
installs are events in an explicit trace.  Python string operations
(str.lower, substring membership, int()) are re-implemented structurally
over lists of characters so that every definition evaluates inside the
kernel.
-/

namespace HRApp

/-- A cell value of the tabular dataset: integers and rationals model the
numeric dtypes produced by the CSV parser, strings model object dtype. -/
inductive Val where
  | vInt : Int → Val
  | vStr : String → Val
  | vRat : Rat → Val
deriving DecidableEq, Repr

/-- Default cell used for out-of-range positional access (never reached on
rectangular frames with in-bounds column indices). -/
def dflt : Val := Val.vStr ""

/-- True on cells of object (string) dtype. -/
def Val.isStr : Val → Bool
  | .vStr _ => true
  | _ => false

/-- A pandas DataFrame: ordered column labels plus rows of cells, each row
aligned positionally with the column list. -/
structure DataFrame where
  cols : List String
  rows : List (List Val)
deriving DecidableEq, Repr

/-- Well-formedness of a frame produced by the CSV parser: every row has
exactly one cell per column. -/
def rect (df : DataFrame) : Bool :=
  df.rows.all (fun r => r.length == df.cols.length)

/-- Lowercase an ASCII letter, as Python str.lower does characterwise. -/
def lowerChar (c : Char) : Char :=
  if 65 ≤ c.toNat ∧ c.toNat ≤ 90 then Char.ofNat (c.toNat + 32) else c

/-- Python str.lower. -/
def lowerStr (s : String) : String :=
  String.mk (s.data.map lowerChar)

/-- Does the second list start with the first one? -/
def beginsWith : List Char → List Char → Bool
  | [], _ => true
  | _ :: _, [] => false
  | a :: as, b :: bs => a == b && beginsWith as bs

/-- Does the haystack contain the needle as a contiguous run? -/
def containsSeq (needle hay : List Char) : Bool :=
  match hay with
  | [] => beginsWith needle []
  | _ :: t => beginsWith needle hay || containsSeq needle t

/-- Python substring membership, the test written in app.py as
sub in s. -/
def strContains (s sub : String) : Bool :=
  containsSeq sub.data s.data

/-- Numeric value of an ASCII digit. -/
def digitVal (c : Char) : Option Nat :=
  if 48 ≤ c.toNat ∧ c.toNat ≤ 57 then some (c.toNat - 48) else none

/-- Value of a nonempty all-digit run; none when a non-digit occurs or the
run is empty. -/
def digitsVal : List Char → Option Nat
  | [] => none
  | [c] => digitVal c
  | c :: cs =>
    match digitVal c, digitsVal cs with
    | some d, some n => some (d * 10 ^ cs.length + n)
    | _, _ => none

/-- Python int(s) on a decimal string: optional sign then digits; none
models the ValueError raised on anything else (surrounding whitespace and
underscore separators, which Python also accepts, are not modelled — the
claims only quantify over strings on which the conversion fails). -/
def pyInt (s : String) : Option Int :=
  match s.data with
  | '-' :: rest => (digitsVal rest).map (fun n => -(n : Int))
  | '+' :: rest => (digitsVal rest).map (fun n => (n : Int))
  | l => (digitsVal l).map (fun n => (n : Int))

/-- Position of a cell within a row: first occurrence of the column label,
mirroring label-based access on a frame with string columns. -/
def getCol (df : DataFrame) (c : String) : List Val :=
  df.rows.map (fun r => r.getD (df.cols.indexOf c) dflt)

/-- Projection of one row onto a list of selected column labels, the
embedding of df[sel] applied rowwise. -/
def projectRow (cols sel : List String) (r : List Val) : List Val :=
  sel.map (fun c => r.getD (cols.indexOf c) dflt)

/-- Column assignment df[c] = vs: overwrite the column in place when the
label already exists, otherwise append it on the right (pandas setitem). -/
def assignCol (df : DataFrame) (c : String) (vs : List Val) : DataFrame :=
  if df.cols.contains c then
    { cols := df.cols,
      rows := df.rows.zipWith (fun r v => r.set (df.cols.indexOf c) v) vs }
  else
    { cols := df.cols ++ [c],
      rows := df.rows.zipWith (fun r v => r ++ [v]) vs }

/-- The pre-trained classifier, consumed as an abstract two-function
contract: a label for a feature row, and the class-1 probability. -/
structure Model where
  predict : List Val → Int
  predict_proba : List Val → Rat

/-- Streamlit session state as initialised in app.py lines 19-21:
st.session_state.df and st.session_state.selected_employee. -/
structure SessionState where
  df : Option DataFrame
  selected_employee : Option DataFrame
deriving DecidableEq, Repr

/-- Session state at session start (app.py lines 19-21): both fields
empty. -/
def initSession : SessionState :=
  { df := none, selected_employee := none }

/-- The Reset button handler (app.py lines 136-139): clear both session
fields. -/
def resetAction (s : SessionState) : SessionState :=
  { s with df := none, selected_employee := none }

/-- Feature-column selection (app.py lines 82 and 126): every column whose
lowercased name is not employee_id, name or absenteeism_risk. -/
def feature_cols (cols : List String) : List String :=
  cols.filter (fun c => !(["employee_id", "name", "absenteeism_risk"].contains (lowerStr c)))

/-- Loop condition of the identifier auto-detection (app.py line 61). -/
def qualifies (c : String) : Bool :=
  strContains (lowerStr c) "id" || strContains (lowerStr c) "name"

/-- Identifier auto-detection (app.py lines 59-63): first column whose
lowercased name contains the substring id or name. -/
def search_column (cols : List String) : Option String :=
  cols.find? qualifies

/-- The dtype test of app.py line 71: a column is non-object (numeric)
when none of its cells is a string. -/
def dtypeNotObject (df : DataFrame) (c : String) : Bool :=
  (getCol df c).all (fun v => !v.isStr)

/-- Coercion of the free-text search value (app.py lines 71-72): against a
numeric column the text is converted with int(), whose failure propagates
as none (the ValueError caught at line 109); against an object column the
text is compared as a string. -/
def coerceSearch (df : DataFrame) (c s : String) : Option Val :=
  if dtypeNotObject df c then (pyInt s).map Val.vInt else some (Val.vStr s)

/-- Row filter of app.py line 74: df[df[search_column] == search_value]
keeps exactly the rows whose cell in the identifier column equals the
coerced value. -/
def employee_data (df : DataFrame) (c : String) (v : Val) : DataFrame :=
  { cols := df.cols,
    rows := df.rows.filter (fun r => r.getD (df.cols.indexOf c) dflt == v) }

/-- Observable outcome of one run of the search block. -/
inductive LookupOutcome where
  | invalidInput
  | notFound
  | shown (ed : DataFrame)
  | predicted (ed : DataFrame) (label : Int) (riskProb : Rat)
deriving DecidableEq, Repr

/-- The search-and-single-prediction block (app.py lines 69-110): coerce
the search value, filter, and on the explicit button press run the
classifier on the matched feature rows and record the match as the
selected employee.  A coercion failure (ValueError) aborts with the
warning of line 110 and touches nothing. -/
def lookupStep (m : Model) (st : SessionState) (df : DataFrame) (c s : String)
    (buttonPressed : Bool) : LookupOutcome × SessionState :=
  match coerceSearch df c s with
  | none => (LookupOutcome.invalidInput, st)
  | some v =>
    let ed := employee_data df c v
    if ed.rows.isEmpty then (LookupOutcome.notFound, st)
    else if buttonPressed then
      let fcols := feature_cols df.cols
      let feats := ed.rows.map (projectRow df.cols fcols)
      let label := m.predict (feats.getD 0 [])
      let prob := m.predict_proba (feats.getD 0 []) * 100
      (LookupOutcome.predicted ed label prob, { st with selected_employee := some ed })
    else (LookupOutcome.shown ed, st)

/-- A pandas getitem key: a plain string label, or the two-string tuple
that app.py line 118 passes. -/
inductive PKey where
  | str (s : String)
  | tup (a b : String)
deriving DecidableEq, Repr

/-- Label-based getitem on a frame whose columns are plain strings: a
string key succeeds exactly when it is a column label; a tuple key never
equals any string label, so it raises KeyError (none). -/
def getItem (df : DataFrame) (k : PKey) : Option (List Val) :=
  match k with
  | .str s => if df.cols.contains s then some (getCol df s) else none
  | .tup _ _ => none

/-- Observable outcome of the Absenteeism Trends block (app.py lines
112-122). -/
structure TrendsResult where
  warnMissing : Bool
  histRendered : Bool
  crashed : Bool
  continuedToBulk : Bool
deriving DecidableEq, Repr

/-- The distribution-chart block (app.py lines 115-122): when the
Absenteeism_Days column is present the histogram call indexes the frame
with the tuple key of line 118; its KeyError propagates uncaught and
aborts the script.  When the column is absent the scoped warning of line
120 is shown, no histogram is drawn, and execution continues to the bulk
prediction block. -/
def trendsBlock (df : DataFrame) : TrendsResult :=
  if df.cols.contains "Absenteeism_Days" then
    match getItem df (PKey.tup "Absenteeism_Days" "Past Absences") with
    | none => { warnMissing := false, histRendered := false, crashed := true,
                continuedToBulk := false }
    | some _ => { warnMissing := false, histRendered := true, crashed := false,
                  continuedToBulk := true }
  else
    { warnMissing := true, histRendered := false, crashed := false,
      continuedToBulk := true }

/-- Bulk prediction (app.py lines 126-128): compute the feature columns,
assign the label column from predict on the current rows, then assign the
probability column from predict_proba on the rows as mutated by the first
assignment (the right-hand side of line 128 reads the frame after line
127 ran). -/
def bulkPredict (m : Model) (df : DataFrame) : DataFrame :=
  let fcols := feature_cols df.cols
  let preds := df.rows.map (fun r => Val.vInt (m.predict (projectRow df.cols fcols r)))
  let df1 := assignCol df "Prediction" preds
  let probs := df1.rows.map (fun r => Val.vRat (m.predict_proba (projectRow df1.cols fcols r) * 100))
  assignCol df1 "Risk Probability (%)" probs

/-- The bulk-prediction block seen from the session: df on line 52 aliases
st.session_state.df, so the in-place column assignments of lines 127-128
mutate the session dataset itself. -/
def bulkStep (m : Model) (st : SessionState) : SessionState :=
  match st.df with
  | none => st
  | some df => { st with df := some (bulkPredict m df) }

/-- CSV cell rendering for the export of app.py line 133. -/
def valCsv : Val → String
  | .vInt n => toString n
  | .vStr s => s
  | .vRat q => toString q

/-- df.to_csv(index=False) as a list of lines: the header line joins the
column labels with commas, then one line per row (cell quoting is not
modelled; the claims only concern which columns appear). -/
def to_csv (df : DataFrame) : List String :=
  String.intercalate "," df.cols :: df.rows.map (fun r => String.intercalate "," (r.map valCsv))

/-- Externally observable effects of the upload handler. -/
inductive Event where
  | fwrite (path : String) (data : List Nat)
  | setDf (d : DataFrame)
deriving DecidableEq, Repr

/-- The upload handler (app.py lines 34-43) as an event trace plus the
resulting session state: the raw bytes are written verbatim to
datasets/Client_<timestamp>.csv, then the same bytes are parsed and the
result installed as the session dataset; a parse failure propagates after
the write, leaving the state unchanged. -/
def uploadStep (parse : List Nat → Option DataFrame) (st : SessionState)
    (ts : String) (bytes : List Nat) : List Event × SessionState :=
  let path := "datasets/" ++ ("Client_" ++ ts ++ ".csv")
  match parse bytes with
  | some d => ([Event.fwrite path bytes, Event.setDf d], { st with df := some d })
  | none => ([Event.fwrite path bytes], st)

end HRApp


namespace HRApp

/-
Helper lemmas shared by several claim theorems.
-/

lemma mem_feature_cols_iff (cols : List String) (c : String) :
    c ∈ feature_cols cols ↔
      c ∈ cols ∧ lowerStr c ∉ ["employee_id", "name", "absenteeism_risk"] := by
  simp [feature_cols, List.mem_filter, List.elem_iff]

lemma find?_eq_some_first {α : Type} (p : α → Bool) (l : List α) (b : α) :
    l.find? p = some b ↔
      p b = true ∧ ∃ pre post, l = pre ++ b :: post ∧ ∀ x ∈ pre, p x = false := by
  induction l with
  | nil => simp
  | cons a t ih =>
    by_cases h : p a = true
    · rw [List.find?_cons_of_pos _ h]
      constructor
      · intro hb
        have hb' : a = b := by simpa using hb
        subst hb'
        exact ⟨h, [], t, rfl, by simp⟩
      · rintro ⟨hpb, pre, post, heq, hall⟩
        cases pre with
        | nil =>
          simp only [List.nil_append] at heq
          injection heq with h1 h2
          subst h1
          rfl
        | cons x xs =>
          simp only [List.cons_append] at heq
          injection heq with h1 h2
          subst h1
          have hfa := hall a (by simp)
          simp [hfa] at h
    · rw [List.find?_cons_of_neg _ h]
      rw [ih]
      constructor
      · rintro ⟨hpb, pre, post, rfl, hall⟩
        refine ⟨hpb, a :: pre, post, rfl, ?_⟩
        intro x hx
        rcases List.mem_cons.mp hx with rfl | hx'
        · simpa using h
        · exact hall x hx'
      · rintro ⟨hpb, pre, post, heq, hall⟩
        cases pre with
        | nil =>
          simp only [List.nil_append] at heq
          injection heq with h1 h2
          subst h1
          exact absurd hpb h
        | cons x xs =>
          simp only [List.cons_append] at heq
          injection heq with h1 h2
          subst h1
          exact ⟨hpb, xs, post, h2, fun y hy => hall y (List.mem_cons_of_mem _ hy)⟩

lemma getD_append_left (l l' : List Val) (i : Nat) (h : i < l.length) :
    (l ++ l').getD i dflt = l.getD i dflt := by
  simp [List.getD, List.getElem?_append, h]

lemma assignCol_cols_new (df : DataFrame) (c : String) (vs : List Val)
    (h : c ∉ df.cols) :
    (assignCol df c vs).cols = df.cols ++ [c] := by
  simp [assignCol, h]

lemma assignCol_rows_new (df : DataFrame) (c : String) (vs : List Val)
    (h : c ∉ df.cols) :
    (assignCol df c vs).rows = df.rows.zipWith (fun r v => r ++ [v]) vs := by
  simp [assignCol, h]

lemma assignCol_rows_length (df : DataFrame) (c : String) (vs : List Val) :
    (assignCol df c vs).rows.length = min df.rows.length vs.length := by
  by_cases h : c ∈ df.cols <;> simp [assignCol, h, List.length_zipWith]

lemma mem_assignCol_cols_self (df : DataFrame) (c : String) (vs : List Val) :
    c ∈ (assignCol df c vs).cols := by
  by_cases h : c ∈ df.cols <;> simp [assignCol, h]

lemma mem_assignCol_cols_of_mem (df : DataFrame) (c : String) (vs : List Val)
    (c' : String) (h : c' ∈ df.cols) : c' ∈ (assignCol df c vs).cols := by
  by_cases hc : c ∈ df.cols <;> simp [assignCol, hc, h]

lemma all_length_zipWith_append (rows : List (List Val)) (vs : List Val) (L : Nat)
    (hlen : vs.length = rows.length)
    (hrect : rows.all (fun r => r.length == L) = true) :
    (rows.zipWith (fun r v => r ++ [v]) vs).all (fun r => r.length == L + 1) = true := by
  induction rows generalizing vs with
  | nil => simp
  | cons r rs ih =>
    cases vs with
    | nil => simp at hlen
    | cons v vt =>
      simp only [List.all_cons, Bool.and_eq_true, beq_iff_eq] at hrect
      simp only [List.zipWith_cons_cons, List.all_cons, Bool.and_eq_true, beq_iff_eq]
      exact ⟨by simp [hrect.1], ih vt (by simpa using hlen) hrect.2⟩

lemma map_getD_zipWith_append (rows : List (List Val)) (vs : List Val) (i L : Nat)
    (hlen : vs.length = rows.length)
    (hrect : rows.all (fun r => r.length == L) = true) (hi : i < L) :
    (rows.zipWith (fun r v => r ++ [v]) vs).map (fun r => r.getD i dflt)
      = rows.map (fun r => r.getD i dflt) := by
  induction rows generalizing vs with
  | nil => simp
  | cons r rs ih =>
    cases vs with
    | nil => simp at hlen
    | cons v vt =>
      simp only [List.all_cons, Bool.and_eq_true, beq_iff_eq] at hrect
      simp only [List.zipWith_cons_cons, List.map_cons]
      rw [getD_append_left _ _ _ (by rw [hrect.1]; exact hi)]
      rw [ih vt (by simpa using hlen) hrect.2]

lemma rect_assignCol_new (df : DataFrame) (c : String) (vs : List Val)
    (h : c ∉ df.cols) (hlen : vs.length = df.rows.length)
    (hrect : rect df = true) :
    rect (assignCol df c vs) = true := by
  rw [rect, assignCol_rows_new _ _ _ h, assignCol_cols_new _ _ _ h]
  simp only [List.length_append, List.length_cons, List.length_nil]
  exact all_length_zipWith_append df.rows vs df.cols.length hlen hrect

lemma getCol_assignCol_new (df : DataFrame) (c : String) (vs : List Val) (c' : String)
    (hmem : c' ∈ df.cols) (h : c ∉ df.cols)
    (hrect : rect df = true) (hlen : vs.length = df.rows.length) :
    getCol (assignCol df c vs) c' = getCol df c' := by
  have hidx : df.cols.indexOf c' < df.cols.length := List.indexOf_lt_length.2 hmem
  rw [getCol, getCol, assignCol_rows_new _ _ _ h, assignCol_cols_new _ _ _ h,
    List.indexOf_append_of_mem hmem]
  exact map_getD_zipWith_append df.rows vs _ df.cols.length hlen hrect hidx

/-- Claim C1: for every dataset, the feature columns passed to the
classifier (the selection shared by single prediction, app.py line 82, and
bulk prediction, line 126) are exactly the dataset's columns minus those
whose lowercased name is employee_id, name or absenteeism_risk, and the
selection is stable under any reordering of the columns. -/
theorem claim_C1 :
    (∀ (cols : List String) (c : String),
        c ∈ feature_cols cols ↔
          c ∈ cols ∧ lowerStr c ∉ ["employee_id", "name", "absenteeism_risk"])
    ∧ (∀ cols cols' : List String, cols.Perm cols' →
        (feature_cols cols).Perm (feature_cols cols')) := by
  refine ⟨mem_feature_cols_iff, ?_⟩
  intro cols cols' hp
  exact hp.filter _

/-- Witness for C1 at a concrete reordered pair of column lists. -/
theorem claim_C1_witness :
    (feature_cols ["Age", "Name"]).Perm (feature_cols ["Name", "Age"]) :=
  claim_C1.2 ["Age", "Name"] ["Name", "Age"] (by decide)

/-- Claim C6: the identifier resolver returns the first column, in the
existing column order, whose lowercased name contains the substring id or
name; it returns none when no column qualifies; and on the columns
Valid_Flag, Employee_Name it selects Valid_Flag. -/
theorem claim_C6 :
    (∀ (cols : List String) (c : String),
        search_column cols = some c ↔
          qualifies c = true ∧
            ∃ pre post, cols = pre ++ c :: post ∧ ∀ x ∈ pre, qualifies x = false)
    ∧ (∀ cols : List String,
        search_column cols = none ↔ ∀ c ∈ cols, qualifies c = false)
    ∧ search_column ["Valid_Flag", "Employee_Name"] = some "Valid_Flag" := by
  refine ⟨fun cols c => find?_eq_some_first qualifies cols c, fun cols => ?_, by decide⟩
  rw [search_column, List.find?_eq_none]
  constructor
  · intro h c hc
    simpa using h c hc
  · intro h c hc
    simp [h c hc]

/-- Claim C8: Reset is total and idempotent — after the reset action the
session state equals the freshly initialised session state, whatever the
prior interactions left in it, and resetting twice equals resetting
once. -/
theorem claim_C8 (s : SessionState) :
    resetAction s = initSession ∧ resetAction (resetAction s) = resetAction s :=
  ⟨rfl, rfl⟩

end HRApp

namespace HRApp

/-- Claim C3: for a dataset whose identifier column has been resolved and
any coerced search value, the lookup filter of app.py line 74 returns
exactly the rows of the dataset whose identifier-column cell equals the
value, and no other rows. -/
theorem claim_C3 (df : DataFrame) (c : String) (v : Val)
    (_hc : search_column df.cols = some c) :
    ∀ r, r ∈ (employee_data df c v).rows ↔
      r ∈ df.rows ∧ r.getD (df.cols.indexOf c) dflt = v := by
  intro r
  rw [employee_data]
  simp [List.mem_filter]

/-- Witness for C3: on a three-row dataset with identifier column
Employee_ID the lookup of value 102 contains the matching row. -/
theorem claim_C3_witness :
    [Val.vInt 102, Val.vStr "B"] ∈
      (employee_data
          ⟨["Employee_ID", "Dept"],
            [[Val.vInt 101, Val.vStr "A"], [Val.vInt 102, Val.vStr "B"],
              [Val.vInt 103, Val.vStr "C"]]⟩
          "Employee_ID" (Val.vInt 102)).rows :=
  (claim_C3
      ⟨["Employee_ID", "Dept"],
        [[Val.vInt 101, Val.vStr "A"], [Val.vInt 102, Val.vStr "B"],
          [Val.vInt 103, Val.vStr "C"]]⟩
      "Employee_ID" (Val.vInt 102) (by decide)
      [Val.vInt 102, Val.vStr "B"]).mpr ⟨by decide, by decide⟩

/-- Claim C4 (code defect): on any dataset that does contain the
Absenteeism_Days column, the guarded histogram branch indexes the frame
with the two-string tuple key of app.py line 118; the key equals no
string column label, so the access fails (KeyError) and the report
crashes instead of rendering the distribution. -/
theorem claim_C4_bug :
    "Absenteeism_Days" ∈ (⟨["Absenteeism_Days"], [[Val.vInt 3]]⟩ : DataFrame).cols
    ∧ getItem ⟨["Absenteeism_Days"], [[Val.vInt 3]]⟩
        (PKey.tup "Absenteeism_Days" "Past Absences") = none
    ∧ (trendsBlock ⟨["Absenteeism_Days"], [[Val.vInt 3]]⟩).crashed = true
    ∧ (trendsBlock ⟨["Absenteeism_Days"], [[Val.vInt 3]]⟩).histRendered = false := by
  decide

/-- Claim C5: against a numeric (non-object) identifier column, a search
string on which the int conversion fails aborts the lookup with the
recoverable warning of app.py line 110 — no rows are shown and the
session state is unchanged, whether or not the predict button was
pressed. -/
theorem claim_C5 (m : Model) (st : SessionState) (df : DataFrame) (c s : String)
    (b : Bool) (hnum : dtypeNotObject df c = true) (hparse : pyInt s = none) :
    lookupStep m st df c s b = (LookupOutcome.invalidInput, st) := by
  rw [lookupStep, coerceSearch, if_pos hnum, hparse]
  rfl

/-- Witness for C5: searching the string abc against the numeric column
Employee_ID aborts with the warning outcome and leaves the state as it
was. -/
theorem claim_C5_witness :
    lookupStep ⟨fun _ => 0, fun _ => 0⟩ initSession
        ⟨["Employee_ID"], [[Val.vInt 101]]⟩ "Employee_ID" "abc" false
      = (LookupOutcome.invalidInput, initSession) :=
  claim_C5 ⟨fun _ => 0, fun _ => 0⟩ initSession ⟨["Employee_ID"], [[Val.vInt 101]]⟩
    "Employee_ID" "abc" false (by decide) (by decide)

/-- Claim C7: when the distribution chart's required column
Absenteeism_Days is absent, that chart alone reports its scoped warning
and does not draw the histogram, the script does not crash, and execution
continues to the remaining blocks of the page. -/
theorem claim_C7 (df : DataFrame) (h : "Absenteeism_Days" ∉ df.cols) :
    (trendsBlock df).warnMissing = true ∧ (trendsBlock df).histRendered = false
      ∧ (trendsBlock df).crashed = false
      ∧ (trendsBlock df).continuedToBulk = true := by
  simp [trendsBlock, h]

/-- Witness for C7: a dataset holding only a Dept column warns and skips
the histogram while the rest of the page still runs. -/
theorem claim_C7_witness :
    (trendsBlock ⟨["Dept"], [[Val.vStr "A"]]⟩).warnMissing = true
    ∧ (trendsBlock ⟨["Dept"], [[Val.vStr "A"]]⟩).histRendered = false
    ∧ (trendsBlock ⟨["Dept"], [[Val.vStr "A"]]⟩).crashed = false
    ∧ (trendsBlock ⟨["Dept"], [[Val.vStr "A"]]⟩).continuedToBulk = true :=
  claim_C7 ⟨["Dept"], [[Val.vStr "A"]]⟩ (by decide)

/-- Claim C9: for every upload, the raw bytes are written verbatim to
datasets/Client_<timestamp>.csv as the first effect of the handler, any
install of the parsed table into the session happens strictly later, and
when parsing fails the persisted file is already in the trace while the
session dataset is unchanged. -/
theorem claim_C9 (parse : List Nat → Option DataFrame) (st : SessionState)
    (ts : String) (bytes : List Nat) :
    ((uploadStep parse st ts bytes).1.head? =
        some (Event.fwrite ("datasets/" ++ ("Client_" ++ ts ++ ".csv")) bytes))
    ∧ (∀ i d, (uploadStep parse st ts bytes).1.get? i = some (Event.setDf d) → 0 < i)
    ∧ (parse bytes = none →
        (uploadStep parse st ts bytes).1 =
            [Event.fwrite ("datasets/" ++ ("Client_" ++ ts ++ ".csv")) bytes]
          ∧ (uploadStep parse st ts bytes).2 = st) := by
  cases hp : parse bytes with
  | none =>
    refine ⟨by simp [uploadStep, hp], ?_, fun _ => ⟨by simp [uploadStep, hp], by simp [uploadStep, hp]⟩⟩
    intro i d hi
    match i with
    | 0 => simp [uploadStep, hp] at hi
    | n + 1 => exact Nat.succ_pos n
  | some d0 =>
    refine ⟨by simp [uploadStep, hp], ?_, fun hno => Option.noConfusion hno⟩
    intro i d hi
    match i with
    | 0 => simp [uploadStep, hp] at hi
    | n + 1 => exact Nat.succ_pos n

/-- Witness for C9: an upload whose parse fails still leaves exactly the
persisted raw file in the trace and the session untouched. -/
theorem claim_C9_witness :
    ((uploadStep (fun _ => none) initSession "20250101000000" [72, 73]).1 =
        [Event.fwrite ("datasets/" ++ ("Client_" ++ "20250101000000" ++ ".csv")) [72, 73]])
    ∧ (uploadStep (fun _ => none) initSession "20250101000000" [72, 73]).2 = initSession :=
  (claim_C9 (fun _ => none) initSession "20250101000000" [72, 73]).2.2 rfl

/-- Claim C10: the bulk-prediction block mutates the session dataset
itself — afterwards the session's current dataset is the augmented frame,
that frame contains the columns Prediction and Risk Probability (%), and
since their lowercased names are not in the feature-exclusion set, every
later feature-column computation over the session dataset includes
them. -/
theorem claim_C10 (st : SessionState) (df : DataFrame) (m : Model)
    (h : st.df = some df) :
    (bulkStep m st).df = some (bulkPredict m df)
    ∧ "Prediction" ∈ (bulkPredict m df).cols
    ∧ "Risk Probability (%)" ∈ (bulkPredict m df).cols
    ∧ "Prediction" ∈ feature_cols (bulkPredict m df).cols
    ∧ "Risk Probability (%)" ∈ feature_cols (bulkPredict m df).cols := by
  have h1 : "Prediction" ∈ (bulkPredict m df).cols := by
    rw [bulkPredict]
    exact mem_assignCol_cols_of_mem _ _ _ _ (mem_assignCol_cols_self _ _ _)
  have h2 : "Risk Probability (%)" ∈ (bulkPredict m df).cols := by
    rw [bulkPredict]
    exact mem_assignCol_cols_self _ _ _
  refine ⟨by rw [bulkStep, h], h1, h2, ?_, ?_⟩
  · exact (mem_feature_cols_iff _ _).mpr ⟨h1, by decide⟩
  · exact (mem_feature_cols_iff _ _).mpr ⟨h2, by decide⟩

/-- Witness for C10: after bulk prediction on a one-column session
dataset the session holds the augmented frame and the result columns are
part of every later feature-column computation. -/
theorem claim_C10_witness :
    (bulkStep ⟨fun _ => 0, fun _ => 0⟩ ⟨some ⟨["Age"], [[Val.vInt 30]]⟩, none⟩).df
        = some (bulkPredict ⟨fun _ => 0, fun _ => 0⟩ ⟨["Age"], [[Val.vInt 30]]⟩)
    ∧ "Prediction" ∈
        feature_cols (bulkPredict ⟨fun _ => 0, fun _ => 0⟩ ⟨["Age"], [[Val.vInt 30]]⟩).cols := by
  have h := claim_C10 ⟨some ⟨["Age"], [[Val.vInt 30]]⟩, none⟩ ⟨["Age"], [[Val.vInt 30]]⟩
    ⟨fun _ => 0, fun _ => 0⟩ rfl
  exact ⟨h.1, h.2.2.2.1⟩

end HRApp

namespace HRApp

lemma assignCol_twice_cols (df : DataFrame) (c₁ c₂ : String) (vs₁ vs₂ : List Val)
    (h1 : c₁ ∉ df.cols) (h2 : c₂ ∉ df.cols) (hne : c₂ ≠ c₁) :
    (assignCol (assignCol df c₁ vs₁) c₂ vs₂).cols = df.cols ++ [c₁, c₂] := by
  have hcols := assignCol_cols_new df c₁ vs₁ h1
  have h2' : c₂ ∉ (assignCol df c₁ vs₁).cols := by
    rw [hcols]
    simp [h2, hne]
  rw [assignCol_cols_new _ _ _ h2', hcols, List.append_assoc]
  rfl

lemma not_mem_assignCol_new (df : DataFrame) (c c₂ : String) (vs : List Val)
    (h : c ∉ df.cols) (h2 : c₂ ∉ df.cols) (hne : c₂ ≠ c) :
    c₂ ∉ (assignCol df c vs).cols := by
  rw [assignCol_cols_new _ _ _ h]
  simp [h2, hne]

lemma assignCol_map_rows_length (df : DataFrame) (c : String) (f : List Val → Val) :
    (assignCol df c (df.rows.map f)).rows.length = df.rows.length := by
  rw [assignCol_rows_length, List.length_map, Nat.min_self]

lemma rect_assignCol_map_new (df : DataFrame) (c : String) (f : List Val → Val)
    (h : c ∉ df.cols) (hrect : rect df = true) :
    rect (assignCol df c (df.rows.map f)) = true :=
  rect_assignCol_new df c _ h (List.length_map _ _) hrect

lemma getCol_assignCol_map_new (df : DataFrame) (c : String) (f : List Val → Val)
    (c' : String) (hmem : c' ∈ df.cols) (h : c ∉ df.cols) (hrect : rect df = true) :
    getCol (assignCol df c (df.rows.map f)) c' = getCol df c' :=
  getCol_assignCol_new df c _ c' hmem h hrect (List.length_map _ _)

lemma bulkPredict_rows_length (m : Model) (df : DataFrame) :
    (bulkPredict m df).rows.length = df.rows.length := by
  simp only [bulkPredict]
  rw [assignCol_map_rows_length, assignCol_map_rows_length]

lemma bulkPredict_getCol (m : Model) (df : DataFrame) (c : String)
    (hc : c ∈ df.cols) (hrect : rect df = true)
    (hp : "Prediction" ∉ df.cols) (hr : "Risk Probability (%)" ∉ df.cols) :
    getCol (bulkPredict m df) c = getCol df c := by
  simp only [bulkPredict]
  exact (getCol_assignCol_map_new _ _ _ _ (mem_assignCol_cols_of_mem _ _ _ _ hc)
      (not_mem_assignCol_new _ _ _ _ hp hr (by decide))
      (rect_assignCol_map_new _ _ _ hp hrect)).trans
    (getCol_assignCol_map_new _ _ _ _ hc hp hrect)

/-- Claim C2 as amended: for every well-formed (rectangular) dataset that
does not already contain a column named Prediction or
Risk Probability (%), bulk prediction preserves the row count and row
order, leaves every original column's values unchanged, appends exactly
the two result columns, and the exported CSV header lists all original
columns followed by the two result columns.  (As stated over every
dataset the claim fails: a pre-existing Prediction or
Risk Probability (%) column is overwritten in place.) -/
theorem claim_C2_amended (m : Model) (df : DataFrame)
    (hrect : rect df = true) (hp : "Prediction" ∉ df.cols)
    (hr : "Risk Probability (%)" ∉ df.cols) :
    (bulkPredict m df).rows.length = df.rows.length
    ∧ (bulkPredict m df).cols = df.cols ++ ["Prediction", "Risk Probability (%)"]
    ∧ (∀ c ∈ df.cols, getCol (bulkPredict m df) c = getCol df c)
    ∧ (to_csv (bulkPredict m df)).head? =
        some (String.intercalate "," (df.cols ++ ["Prediction", "Risk Probability (%)"])) := by
  have hcols : (bulkPredict m df).cols = df.cols ++ ["Prediction", "Risk Probability (%)"] := by
    simp only [bulkPredict]
    exact assignCol_twice_cols df _ _ _ _ hp hr (by decide)
  refine ⟨bulkPredict_rows_length m df, hcols,
    fun c hc => bulkPredict_getCol m df c hc hrect hp hr, ?_⟩
  rw [to_csv, List.head?_cons, hcols]

/-- Counterexample to C2 as stated: a dataset that already holds a column
named Prediction; bulk prediction overwrites that original column's
values in place instead of only adding result columns. -/
theorem claim_C2_cex :
    "Prediction" ∈ (⟨["Prediction"], [[Val.vInt 5]]⟩ : DataFrame).cols
    ∧ getCol (bulkPredict ⟨fun _ => 0, fun _ => 0⟩ ⟨["Prediction"], [[Val.vInt 5]]⟩)
          "Prediction"
        ≠ getCol (⟨["Prediction"], [[Val.vInt 5]]⟩ : DataFrame) "Prediction" := by
  decide

/-- Witness for the amended C2 on a concrete one-column dataset. -/
theorem claim_C2_witness :
    rect (⟨["Age"], [[Val.vInt 30]]⟩ : DataFrame) = true
    ∧ (bulkPredict ⟨fun _ => 0, fun _ => 0⟩ ⟨["Age"], [[Val.vInt 30]]⟩).cols
        = ["Age"] ++ ["Prediction", "Risk Probability (%)"] := by
  have h := claim_C2_amended ⟨fun _ => 0, fun _ => 0⟩ ⟨["Age"], [[Val.vInt 30]]⟩
    (by decide) (by decide) (by decide)
  exact ⟨by decide, h.2.1⟩

end HRApp
